import Mathlib

/-!
Verification development for the mini-kuber repository (src/mini-kuber.js).

The JavaScript source is shallowly embedded below.  JavaScript objects whose
key set is dynamic (label maps, env maps, data maps) are modelled as
association lists `List (String × String)` in insertion order; JavaScript
object-spread and key assignment are modelled by `objSet` / `objSpread`.
The JavaScript defaulting idiom `x || d` is falsy-based (0 and the empty
string select the default); it is modelled by `jsOrN` / `jsOrStr`.
Optional (possibly `undefined`) fields are modelled with `Option`.
-/

/-- Model of the JavaScript defaulting idiom `x || d` for numeric option
fields: `undefined` and `0` are falsy and select the default. -/
def jsOrN (o : Option Nat) (d : Nat) : Nat :=
  match o with
  | some v => if v = 0 then d else v
  | none => d

/-- Model of the JavaScript defaulting idiom `x || d` for string option
fields: `undefined` and the empty string are falsy and select the default. -/
def jsOrStr (o : Option String) (d : String) : String :=
  match o with
  | some s => if s = "" then d else s
  | none => d

/-- Model of the JavaScript assignment `obj[k] = v` on a string-keyed object:
an existing key keeps its position and is overwritten, a new key is appended. -/
def objSet (o : List (String × String)) (k v : String) : List (String × String) :=
  if o.any (fun p => p.1 == k) then o.map (fun p => if p.1 == k then (k, v) else p)
  else o ++ [(k, v)]

/-- Model of the JavaScript object spread `{ ...base, ...ext }`: the entries of
`ext` are assigned onto `base` one at a time, in order. -/
def objSpread (base ext : List (String × String)) : List (String × String) :=
  ext.foldl (fun acc p => objSet acc p.1 p.2) base

/-- Base class `Resource` (src/mini-kuber.js lines 20-28).  The field
`namespace` of the source is named `nspace` here because `namespace` is a
Lean keyword.  `labels` starts as `{ app: name, managed-by: mini-kuber }`
and `annotations` starts empty. -/
structure Resource where
  kind : String
  name : String
  nspace : String
  labels : List (String × String)
  annotations : List (String × String)
deriving DecidableEq, Repr

/-- Constructor of `Resource` (lines 21-27). -/
def Resource.make (kind name nspace : String) : Resource :=
  { kind := kind, name := name, nspace := nspace,
    labels := [("app", name), ("managed-by", "mini-kuber")],
    annotations := [] }

/-- Options object accepted by the `Deployment` constructor (lines 34-49).
Every field may be absent (`undefined` in the source). -/
structure DeploymentOptions where
  nspace : Option String := none
  image : Option String := none
  replicas : Option Nat := none
  port : Option Nat := none
  env : Option (List (String × String)) := none
  cpuRequest : Option String := none
  memoryRequest : Option String := none
  cpuLimit : Option String := none
  memoryLimit : Option String := none
  autoHeal : Option Bool := none
deriving DecidableEq, Repr

/-- Class `Deployment` (lines 30-49): instance fields after construction. -/
structure Deployment where
  base : Resource
  image : String
  replicas : Nat
  port : Option Nat
  env : List (String × String)
  cpuRequest : String
  memoryRequest : String
  cpuLimit : String
  memoryLimit : String
deriving DecidableEq, Repr

/-- Constructor of `Deployment` (lines 34-49).  Note the falsy defaulting of
`options.replicas || 1` (so an explicit `0` becomes `1`) and the label
mutation `labels[auto-heal] = true` guarded by `options.autoHeal !== false`. -/
def Deployment.make (name : String) (options : DeploymentOptions) : Deployment :=
  let base := Resource.make "Deployment" name (jsOrStr options.nspace "default")
  let base :=
    match options.autoHeal with
    | some false => base
    | _ => { base with labels := objSet base.labels "auto-heal" "true" }
  { base := base,
    image := jsOrStr options.image "nginx:latest",
    replicas := jsOrN options.replicas 1,
    port := options.port,
    env := options.env.getD [],
    cpuRequest := jsOrStr options.cpuRequest "100m",
    memoryRequest := jsOrStr options.memoryRequest "128Mi",
    cpuLimit := jsOrStr options.cpuLimit "500m",
    memoryLimit := jsOrStr options.memoryLimit "512Mi" }

/-- Resource request/limit quantities of a container (lines 55-58). -/
structure ResourceAmounts where
  cpu : String
  memory : String
deriving DecidableEq, Repr

/-- The `resources` object of a deployment container (lines 55-58). -/
structure ContainerResources where
  requests : ResourceAmounts
  limits : ResourceAmounts
deriving DecidableEq, Repr

/-- One entry of a container `ports` array (line 62). -/
structure PortSpec where
  containerPort : Nat
deriving DecidableEq, Repr

/-- One entry of a container `env` array (lines 66-68). -/
structure EnvVar where
  name : String
  value : String
deriving DecidableEq, Repr

/-- A deployment pod container (lines 52-69).  `ports` and `env` are `none`
when the corresponding key is not set on the object. -/
structure Container where
  name : String
  image : String
  resources : ContainerResources
  ports : Option (List PortSpec)
  env : Option (List EnvVar)
deriving DecidableEq, Repr

/-- The `metadata` object of a serialized resource.  `annotations` is `none`
for the resource kinds whose `toYAML` does not emit that key. -/
structure Metadata where
  name : String
  nspace : String
  labels : List (String × String)
  annotations : Option (List (String × String))
deriving DecidableEq, Repr

/-- The `selector` object `{ matchLabels: ... }` of a workload spec. -/
structure LabelSelector where
  matchLabels : List (String × String)
deriving DecidableEq, Repr

/-- The `template.metadata` object of a workload spec. -/
structure PodTemplateMeta where
  labels : List (String × String)
deriving DecidableEq, Repr

/-- The `template.spec` object of a deployment (line 85). -/
structure PodSpec where
  containers : List Container
deriving DecidableEq, Repr

/-- The `template` object of a deployment spec (lines 83-86). -/
structure PodTemplate where
  metadata : PodTemplateMeta
  spec : PodSpec
deriving DecidableEq, Repr

/-- The `spec` object of a serialized deployment (lines 80-87). -/
structure DeploymentSpec where
  replicas : Nat
  selector : LabelSelector
  template : PodTemplate
deriving DecidableEq, Repr

/-- A serialized deployment document (lines 71-88). -/
structure DeploymentDoc where
  apiVersion : String
  kind : String
  metadata : Metadata
  spec : DeploymentSpec
deriving DecidableEq, Repr

/-- Method `Deployment.toYAML` (lines 51-89).  The container `ports` key is
set only when `this.port` is truthy; `env` only when the env map is nonempty.
The template labels are the spread `{ app: this.name, ...this.labels }`. -/
def Deployment.toYAML (d : Deployment) : DeploymentDoc :=
  let container : Container :=
    { name := d.base.name,
      image := d.image,
      resources := { requests := { cpu := d.cpuRequest, memory := d.memoryRequest },
                     limits := { cpu := d.cpuLimit, memory := d.memoryLimit } },
      ports :=
        match d.port with
        | some p => if p = 0 then none else some [{ containerPort := p }]
        | none => none,
      env :=
        if d.env.isEmpty then none
        else some (d.env.map (fun p => { name := p.1, value := p.2 })) }
  { apiVersion := "apps/v1",
    kind := "Deployment",
    metadata := { name := d.base.name, nspace := d.base.nspace,
                  labels := d.base.labels, annotations := some d.base.annotations },
    spec := { replicas := d.replicas,
              selector := { matchLabels := [("app", d.base.name)] },
              template := { metadata := { labels := objSpread [("app", d.base.name)] d.base.labels },
                            spec := { containers := [container] } } } }

/-- The fields of a workload object (a `Deployment` or `StatefulSet` instance)
that `serviceFor`, `autoscaleFor` and the `Service` / `HorizontalPodAutoscaler`
constructors actually read: `name`, `port` and `namespace`. -/
structure WorkloadRef where
  name : String
  port : Option Nat
  nspace : String
deriving DecidableEq, Repr

/-- The `target` argument of the `Service` and `HorizontalPodAutoscaler`
constructors: either a plain workload name string or a workload object. -/
inductive ServiceTarget where
  | byName (s : String)
  | byRef (w : WorkloadRef)
deriving DecidableEq, Repr

/-- Model of `typeof target === string ? target : target.name` (line 99). -/
def ServiceTarget.tname : ServiceTarget → String
  | .byName s => s
  | .byRef w => w.name

/-- Model of the property read `target.port` (line 101): reading `.port` on a
plain string yields `undefined`. -/
def ServiceTarget.tport : ServiceTarget → Option Nat
  | .byName _ => none
  | .byRef w => w.port

/-- Options object accepted by the `Service` constructor (lines 96-103). -/
structure ServiceOptions where
  nspace : Option String := none
  port : Option Nat := none
  targetPort : Option Nat := none
  type : Option String := none
deriving DecidableEq, Repr

/-- Class `Service` (lines 92-103): instance fields after construction. -/
structure Service where
  base : Resource
  target : String
  port : Nat
  targetPort : Nat
  type : String
deriving DecidableEq, Repr

/-- Constructor of `Service` (lines 96-103).  `targetPort` is
`options.targetPort || (target.port || this.port)` with falsy defaulting. -/
def Service.make (name : String) (target : ServiceTarget) (options : ServiceOptions) : Service :=
  let base := Resource.make "Service" name (jsOrStr options.nspace "default")
  let port := jsOrN options.port 80
  { base := base,
    target := target.tname,
    port := port,
    targetPort := jsOrN options.targetPort (jsOrN target.tport port),
    type := jsOrStr options.type "ClusterIP" }

/-- One entry of the service `ports` array (lines 117-121). -/
structure ServicePort where
  port : Nat
  targetPort : Nat
  protocol : String
deriving DecidableEq, Repr

/-- The `spec` object of a serialized service (lines 115-123). -/
structure ServiceSpec where
  selector : List (String × String)
  ports : List ServicePort
  type : String
deriving DecidableEq, Repr

/-- A serialized service document (lines 105-125). -/
structure ServiceDoc where
  apiVersion : String
  kind : String
  metadata : Metadata
  spec : ServiceSpec
deriving DecidableEq, Repr

/-- Method `Service.toYAML` (lines 105-125). -/
def Service.toYAML (s : Service) : ServiceDoc :=
  { apiVersion := "v1",
    kind := "Service",
    metadata := { name := s.base.name, nspace := s.base.nspace,
                  labels := s.base.labels, annotations := some s.base.annotations },
    spec := { selector := [("app", s.target)],
              ports := [{ port := s.port, targetPort := s.targetPort, protocol := "TCP" }],
              type := s.type } }

/-- Options object accepted by the `StatefulSet` constructor (lines 132-141). -/
structure StatefulSetOptions where
  nspace : Option String := none
  image : Option String := none
  replicas : Option Nat := none
  port : Option Nat := none
  storage : Option String := none
  storageClass : Option String := none
  env : Option (List (String × String)) := none
deriving DecidableEq, Repr

/-- Class `StatefulSet` (lines 128-141): instance fields after construction.
Note that `image` has no default: `this.image = options.image` (line 135). -/
structure StatefulSet where
  base : Resource
  image : Option String
  replicas : Nat
  port : Option Nat
  storage : String
  storageClass : String
  env : List (String × String)
deriving DecidableEq, Repr

/-- Constructor of `StatefulSet` (lines 132-141). -/
def StatefulSet.make (name : String) (options : StatefulSetOptions) : StatefulSet :=
  { base := Resource.make "StatefulSet" name (jsOrStr options.nspace "default"),
    image := options.image,
    replicas := jsOrN options.replicas 1,
    port := options.port,
    storage := jsOrStr options.storage "10Gi",
    storageClass := jsOrStr options.storageClass "standard",
    env := options.env.getD [] }

/-- One entry of the stateful-set container `volumeMounts` array
(lines 147-150). -/
structure VolumeMount where
  name : String
  mountPath : String
deriving DecidableEq, Repr

/-- A stateful-set pod container (lines 144-161): unlike a deployment
container it has `volumeMounts` and no `resources`, and its `image` may be
`undefined`. -/
structure SContainer where
  name : String
  image : Option String
  volumeMounts : List VolumeMount
  ports : Option (List PortSpec)
  env : Option (List EnvVar)
deriving DecidableEq, Repr

/-- One entry of `volumeClaimTemplates` (lines 179-186), flattened:
`name` is `metadata.name`, `accessModes` / `storageClassName` are
`spec.accessModes` / `spec.storageClassName`, and `storageRequest` is
`spec.resources.requests.storage`. -/
structure VolumeClaimTemplate where
  name : String
  accessModes : List String
  storageClassName : String
  storageRequest : String
deriving DecidableEq, Repr

/-- The `template.spec` object of a stateful set (line 177). -/
structure SPodSpec where
  containers : List SContainer
deriving DecidableEq, Repr

/-- The `template` object of a stateful-set spec (lines 175-178). -/
structure SPodTemplate where
  metadata : PodTemplateMeta
  spec : SPodSpec
deriving DecidableEq, Repr

/-- The `spec` object of a serialized stateful set (lines 171-187). -/
structure StatefulSetSpec where
  serviceName : String
  replicas : Nat
  selector : LabelSelector
  template : SPodTemplate
  volumeClaimTemplates : List VolumeClaimTemplate
deriving DecidableEq, Repr

/-- A serialized stateful-set document (lines 163-188).  Its metadata has no
`annotations` key. -/
structure StatefulSetDoc where
  apiVersion : String
  kind : String
  metadata : Metadata
  spec : StatefulSetSpec
deriving DecidableEq, Repr

/-- Method `StatefulSet.toYAML` (lines 143-189). -/
def StatefulSet.toYAML (s : StatefulSet) : StatefulSetDoc :=
  let container : SContainer :=
    { name := s.base.name,
      image := s.image,
      volumeMounts := [{ name := s.base.name ++ "-storage", mountPath := "/var/lib/data" }],
      ports :=
        match s.port with
        | some p => if p = 0 then none else some [{ containerPort := p }]
        | none => none,
      env :=
        if s.env.isEmpty then none
        else some (s.env.map (fun p => { name := p.1, value := p.2 })) }
  { apiVersion := "apps/v1",
    kind := "StatefulSet",
    metadata := { name := s.base.name, nspace := s.base.nspace,
                  labels := s.base.labels, annotations := none },
    spec := { serviceName := s.base.name,
              replicas := s.replicas,
              selector := { matchLabels := [("app", s.base.name)] },
              template := { metadata := { labels := [("app", s.base.name)] },
                            spec := { containers := [container] } },
              volumeClaimTemplates :=
                [{ name := s.base.name ++ "-storage",
                   accessModes := ["ReadWriteOnce"],
                   storageClassName := s.storageClass,
                   storageRequest := s.storage }] } }

/-- Options object accepted by the `ConfigMap` constructor (lines 196-199). -/
structure ConfigMapOptions where
  nspace : Option String := none
deriving DecidableEq, Repr

/-- Class `ConfigMap` (lines 192-199). -/
structure ConfigMap where
  base : Resource
  data : List (String × String)
deriving DecidableEq, Repr

/-- Constructor of `ConfigMap` (lines 196-199). -/
def ConfigMap.make (name : String) (data : List (String × String))
    (options : ConfigMapOptions) : ConfigMap :=
  { base := Resource.make "ConfigMap" name (jsOrStr options.nspace "default"),
    data := data }

/-- A serialized config-map document (lines 201-212). -/
structure ConfigMapDoc where
  apiVersion : String
  kind : String
  metadata : Metadata
  data : List (String × String)
deriving DecidableEq, Repr

/-- Method `ConfigMap.toYAML` (lines 201-212). -/
def ConfigMap.toYAML (c : ConfigMap) : ConfigMapDoc :=
  { apiVersion := "v1",
    kind := "ConfigMap",
    metadata := { name := c.base.name, nspace := c.base.nspace,
                  labels := c.base.labels, annotations := none },
    data := c.data }

/-- The base64 alphabet used by `Buffer.toString(base64)`. -/
def b64Alphabet : List Char :=
  "ABCDEFGHIJKLMNOPQRSTUVWXYZabcdefghijklmnopqrstuvwxyz0123456789+/".toList

/-- The character encoding a six-bit group. -/
def b64Char (n : Nat) : Char := b64Alphabet.getD n 'A'

/-- Standard base64 encoding of a byte sequence, with `=` padding, as
produced by `Buffer.from(value).toString(base64)` (line 228). -/
def base64Encode : List Nat → List Char
  | [] => []
  | [a] => [b64Char (a / 4), b64Char (a % 4 * 16), '=', '=']
  | [a, b] => [b64Char (a / 4), b64Char (a % 4 * 16 + b / 16), b64Char (b % 16 * 4), '=']
  | a :: b :: c :: rest =>
      b64Char (a / 4) :: b64Char (a % 4 * 16 + b / 16) ::
      b64Char (b % 16 * 4 + c / 64) :: b64Char (c % 64) :: base64Encode rest

/-- Index of a character in the base64 alphabet suffix starting the search. -/
def b64IndexAux (c : Char) : List Char → Option Nat
  | [] => none
  | x :: xs => if x = c then some 0 else (b64IndexAux c xs).map (· + 1)

/-- Index of a character in the base64 alphabet. -/
def b64Index (c : Char) : Option Nat := b64IndexAux c b64Alphabet

/-- Standard base64 decoding, the inverse reading of `base64Encode`. -/
def base64Decode : List Char → Option (List Nat)
  | [] => some []
  | c1 :: c2 :: c3 :: c4 :: rest =>
      if c3 = '=' ∧ c4 = '=' ∧ rest = [] then
        match b64Index c1, b64Index c2 with
        | some a, some b => some [a * 4 + b / 16]
        | _, _ => none
      else if c4 = '=' ∧ rest = [] then
        match b64Index c1, b64Index c2, b64Index c3 with
        | some a, some b, some c => some [a * 4 + b / 16, b % 16 * 16 + c / 4]
        | _, _, _ => none
      else
        match b64Index c1, b64Index c2, b64Index c3, b64Index c4, base64Decode rest with
        | some a, some b, some c, some d, some tail =>
            some ((a * 4 + b / 16) :: (b % 16 * 16 + c / 4) :: (c % 4 * 64 + d) :: tail)
        | _, _, _, _, _ => none
  | _ => none

/-- UTF-8 encoding of a Unicode scalar value, following `String.utf8EncodeChar`:
this is the byte sequence `Buffer.from` derives from each character. -/
def utf8EncodeNat (n : Nat) : List Nat :=
  if n < 128 then [n]
  else if n < 2048 then [192 + n / 64, 128 + n % 64]
  else if n < 65536 then [224 + n / 4096, 128 + n / 64 % 64, 128 + n % 64]
  else [240 + n / 262144, 128 + n / 4096 % 64, 128 + n / 64 % 64, 128 + n % 64]

/-- The UTF-8 bytes of a string, the byte sequence `Buffer.from(value)`
operates on (line 228). -/
def utf8Bytes (s : String) : List Nat := s.data.flatMap (fun c => utf8EncodeNat c.toNat)

/-- Options object accepted by the `Secret` constructor (lines 219-223). -/
structure SecretOptions where
  nspace : Option String := none
  type : Option String := none
deriving DecidableEq, Repr

/-- Class `Secret` (lines 215-223). -/
structure Secret where
  base : Resource
  data : List (String × String)
  type : String
deriving DecidableEq, Repr

/-- Constructor of `Secret` (lines 219-223). -/
def Secret.make (name : String) (data : List (String × String))
    (options : SecretOptions) : Secret :=
  { base := Resource.make "Secret" name (jsOrStr options.nspace "default"),
    data := data,
    type := jsOrStr options.type "Opaque" }

/-- A serialized secret document (lines 231-241). -/
structure SecretDoc where
  apiVersion : String
  kind : String
  metadata : Metadata
  type : String
  data : List (String × String)
deriving DecidableEq, Repr

/-- Method `Secret.toYAML` (lines 225-242): every data value is replaced by
the base64 encoding of its UTF-8 bytes. -/
def Secret.toYAML (s : Secret) : SecretDoc :=
  { apiVersion := "v1",
    kind := "Secret",
    metadata := { name := s.base.name, nspace := s.base.nspace,
                  labels := s.base.labels, annotations := none },
    type := s.type,
    data := s.data.map (fun p => (p.1, String.mk (base64Encode (utf8Bytes p.2)))) }

/-- Options object accepted by the `HorizontalPodAutoscaler` constructor
(lines 249-256). -/
structure HPAOptions where
  nspace : Option String := none
  minReplicas : Option Nat := none
  maxReplicas : Option Nat := none
  cpuPercent : Option Nat := none
deriving DecidableEq, Repr

/-- Class `HorizontalPodAutoscaler` (lines 245-256). -/
structure HorizontalPodAutoscaler where
  base : Resource
  target : String
  minReplicas : Nat
  maxReplicas : Nat
  cpuPercent : Nat
deriving DecidableEq, Repr

/-- Constructor of `HorizontalPodAutoscaler` (lines 249-256). -/
def HorizontalPodAutoscaler.make (name : String) (target : ServiceTarget)
    (options : HPAOptions) : HorizontalPodAutoscaler :=
  { base := Resource.make "HorizontalPodAutoscaler" name (jsOrStr options.nspace "default"),
    target := target.tname,
    minReplicas := jsOrN options.minReplicas 1,
    maxReplicas := jsOrN options.maxReplicas 10,
    cpuPercent := jsOrN options.cpuPercent 80 }

/-- The `scaleTargetRef` object of an autoscaler spec (lines 268-272). -/
structure ScaleTargetRef where
  apiVersion : String
  kind : String
  name : String
deriving DecidableEq, Repr

/-- The target of an autoscaler metric (lines 279-282). -/
structure MetricTarget where
  type : String
  averageUtilization : Nat
deriving DecidableEq, Repr

/-- The resource part of an autoscaler metric (lines 277-283). -/
structure MetricResource where
  name : String
  target : MetricTarget
deriving DecidableEq, Repr

/-- One entry of the autoscaler `metrics` array (lines 275-284). -/
structure Metric where
  type : String
  resource : MetricResource
deriving DecidableEq, Repr

/-- The `spec` object of a serialized autoscaler (lines 267-285). -/
structure HPASpec where
  scaleTargetRef : ScaleTargetRef
  minReplicas : Nat
  maxReplicas : Nat
  metrics : List Metric
deriving DecidableEq, Repr

/-- A serialized autoscaler document (lines 258-287). -/
structure HPADoc where
  apiVersion : String
  kind : String
  metadata : Metadata
  spec : HPASpec
deriving DecidableEq, Repr

/-- Method `HorizontalPodAutoscaler.toYAML` (lines 258-287). -/
def HorizontalPodAutoscaler.toYAML (h : HorizontalPodAutoscaler) : HPADoc :=
  { apiVersion := "autoscaling/v2",
    kind := "HorizontalPodAutoscaler",
    metadata := { name := h.base.name, nspace := h.base.nspace,
                  labels := h.base.labels, annotations := none },
    spec := { scaleTargetRef := { apiVersion := "apps/v1", kind := "Deployment",
                                  name := h.target },
              minReplicas := h.minReplicas,
              maxReplicas := h.maxReplicas,
              metrics := [{ type := "Resource",
                            resource := { name := "cpu",
                                          target := { type := "Utilization",
                                                      averageUtilization := h.cpuPercent } } }] } }

/-- The view of a `Deployment` instance passed as a workload object. -/
def Deployment.ref (d : Deployment) : WorkloadRef :=
  { name := d.base.name, port := d.port, nspace := d.base.nspace }

/-- The view of a `StatefulSet` instance passed as a workload object. -/
def StatefulSet.ref (s : StatefulSet) : WorkloadRef :=
  { name := s.base.name, port := s.port, nspace := s.base.nspace }

/-- Function `serviceFor` (lines 291-302).  The options object passed to the
`Service` constructor is
`{ port: options.port || deployment.port || 80, type: options.type || ClusterIP,
namespace: deployment.namespace, ...options }`: the trailing spread overrides
each computed entry with the raw caller value whenever the caller supplied
that key. -/
def serviceFor (w : WorkloadRef) (options : ServiceOptions) : Service :=
  Service.make (w.name ++ "-service") (ServiceTarget.byRef w)
    { port := some (match options.port with
        | some p => p
        | none => jsOrN w.port 80),
      targetPort := options.targetPort,
      type := some (match options.type with
        | some t => t
        | none => "ClusterIP"),
      nspace := some (match options.nspace with
        | some n => n
        | none => w.nspace) }

/-- Function `autoscaleFor` (lines 501-509): same trailing-spread pattern as
`serviceFor`, with defaults `minReplicas 1`, `maxReplicas 10`,
`cpuPercent 80` and the namespace of the workload. -/
def autoscaleFor (w : WorkloadRef) (options : HPAOptions) : HorizontalPodAutoscaler :=
  HorizontalPodAutoscaler.make (w.name ++ "-hpa") (ServiceTarget.byRef w)
    { minReplicas := some (options.minReplicas.getD 1),
      maxReplicas := some (options.maxReplicas.getD 10),
      cpuPercent := some (options.cpuPercent.getD 80),
      nspace := some (options.nspace.getD w.nspace) }

/-- A resource value as passed to `deploy`: one of the six builder classes. -/
inductive KubeResource where
  | deployment (d : Deployment)
  | service (s : Service)
  | statefulSet (s : StatefulSet)
  | configMap (c : ConfigMap)
  | secret (s : Secret)
  | autoscaler (h : HorizontalPodAutoscaler)
deriving DecidableEq, Repr

/-- The property read `resource.kind` (line 318). -/
def KubeResource.kind : KubeResource → String
  | .deployment d => d.base.kind
  | .service s => s.base.kind
  | .statefulSet s => s.base.kind
  | .configMap c => c.base.kind
  | .secret s => s.base.kind
  | .autoscaler h => h.base.kind

/-- The property read `resource.name` (line 318). -/
def KubeResource.name : KubeResource → String
  | .deployment d => d.base.name
  | .service s => s.base.name
  | .statefulSet s => s.base.name
  | .configMap c => c.base.name
  | .secret s => s.base.name
  | .autoscaler h => h.base.name

/-- The structured document produced by `resource.toYAML()` (line 316). -/
inductive Doc where
  | dep (d : DeploymentDoc)
  | svc (s : ServiceDoc)
  | sts (s : StatefulSetDoc)
  | cm (c : ConfigMapDoc)
  | sec (s : SecretDoc)
  | hpa (h : HPADoc)
deriving DecidableEq, Repr

/-- The method call `resource.toYAML()` dispatched per class. -/
def KubeResource.toDoc : KubeResource → Doc
  | .deployment d => .dep d.toYAML
  | .service s => .svc s.toYAML
  | .statefulSet s => .sts s.toYAML
  | .configMap c => .cm c.toYAML
  | .secret s => .sec s.toYAML
  | .autoscaler h => .hpa h.toYAML

/-- Options object accepted by `webApp` (lines 368-379). -/
structure WebAppOptions where
  replicas : Option Nat := none
  port : Option Nat := none
  autoScale : Option Bool := none
  env : Option (List (String × String)) := none
  nspace : Option String := none
deriving DecidableEq, Repr

/-- Function `webApp` (lines 368-393): a deployment, its load-balanced
service, and (unless `autoScale` is `false`) an autoscaler with
`minReplicas = replicas` and `maxReplicas = replicas * 3`. -/
def webApp (name image : String) (options : WebAppOptions) : List KubeResource :=
  let replicas := jsOrN options.replicas 3
  let port := jsOrN options.port 80
  let app := Deployment.make name
    { image := some image, replicas := some replicas, port := some port,
      env := options.env, nspace := options.nspace }
  let svc := serviceFor app.ref { type := some "LoadBalancer" }
  let resources := [KubeResource.deployment app, KubeResource.service svc]
  match options.autoScale with
  | some false => resources
  | _ => resources ++ [KubeResource.autoscaler (autoscaleFor app.ref
      { minReplicas := some replicas, maxReplicas := some (replicas * 3) })]

/-- Options object accepted by `database` (lines 395-406). -/
structure DatabaseOptions where
  storage : Option String := none
  env : Option (List (String × String)) := none
  port : Option Nat := none
  nspace : Option String := none
deriving DecidableEq, Repr

/-- Function `database` (lines 395-406): a stateful set and its service. -/
def database (name image : String) (options : DatabaseOptions) : List KubeResource :=
  let db := StatefulSet.make name
    { image := some image, storage := some (jsOrStr options.storage "10Gi"),
      env := options.env, port := options.port, nspace := options.nspace }
  [KubeResource.statefulSet db, KubeResource.service (serviceFor db.ref {})]

/-- The trailing options object of a `deploy` call (lines 304-310): `dryRun`
is falsy when absent, `apply` is `options.apply !== false`. -/
structure DeployOpts where
  dryRun : Bool := false
  apply : Bool := true
deriving DecidableEq, Repr

/-- The external world a `deploy` call interacts with: whether the `js-yaml`
module resolves, the outcome of the `kubectl` child process (`none` means
exit status zero, `some e` means it threw an error with message `e`), and the
clock value used in the transient file name. -/
structure DeployEnv where
  jsYamlOk : Bool
  kubectlErr : Option String
  now : Nat
deriving DecidableEq, Repr

/-- An observable step of a `deploy` call: a console line, the per-resource
announcement (line 318), a file write, a child-process invocation, or a file
removal. -/
inductive Event where
  | log (msg : String)
  | announce (kind name : String)
  | fsWrite (path content : String)
  | exec (cmd : String)
  | fsDelete (path : String)
deriving DecidableEq, Repr

/-- The transient manifest path `mini-kuber-${Date.now()}.yaml` (line 337),
relative to the platform temporary directory. -/
def tempFileName (now : Nat) : String :=
  "mini-kuber-" ++ toString now ++ ".yaml"

/-- Model of `String.prototype.includes` (lines 356 and 358): whether the
needle occurs as a contiguous substring of the haystack. -/
def hasSubstr (needle : List Char) : List Char → Bool
  | [] => needle.isEmpty
  | c :: t => needle.isPrefixOf (c :: t) || hasSubstr needle t

/-- The message-routing of the catch block (lines 355-363). -/
def catchMessage (e : String) : String :=
  if hasSubstr "js-yaml".data e.data then
    "js-yaml required: npm install js-yaml"
  else if hasSubstr "kubectl".data e.data then
    "kubectl not found. Please install kubectl and configure cluster access."
  else
    "Deployment error: " ++ e

/-- The error message of a failed `require(js-yaml)`. -/
def missingYamlMsg : String := "Cannot find module js-yaml"

/-- Function `deploy` (lines 304-365), as a pure function from the external
environment to a result and the ordered trace of its observable steps.
The variadic argument sniffing of lines 305-308 is modelled by taking the
resource list and the optional trailing options object separately (`none`
means no trailing options object was passed, so `dryRun` is falsy and
`apply` is truthy).  `dump` stands for `yaml.dump` of the external `js-yaml`
module.  An `Except.error` result models an exception that escapes `deploy`
uncaught: the `require(js-yaml)` of the dry-run branch (line 323) sits
outside the try block of lines 335-364, so its failure propagates. -/
def deployRun (dump : Doc → String) (env : DeployEnv)
    (resources : List KubeResource) (options : Option DeployOpts) :
    Except String Bool × List Event :=
  let dryRun := (options.map (fun o => o.dryRun)).getD false
  let apply := (options.map (fun o => o.apply)).getD true
  let docs := resources.map KubeResource.toDoc
  let evs0 := Event.log ("Deploying " ++ toString resources.length ++ " resources...") ::
    resources.map (fun r => Event.announce r.kind r.name)
  if dryRun then
    if env.jsYamlOk then
      (.ok true, evs0 ++ [Event.log "Dry run - YAML would be:"] ++
        docs.flatMap (fun d => [Event.log "---", Event.log (dump d)]))
    else
      (.error missingYamlMsg, evs0 ++ [Event.log "Dry run - YAML would be:"])
  else if !apply then
    (.ok true, evs0)
  else if !env.jsYamlOk then
    (.ok false, evs0 ++ [Event.log (catchMessage missingYamlMsg)])
  else
    let tf := tempFileName env.now
    let content := String.intercalate "---\n" (docs.map dump)
    match env.kubectlErr with
    | none =>
      (.ok true, evs0 ++ [Event.fsWrite tf content,
        Event.exec ("kubectl apply -f " ++ tf),
        Event.log "Deployment successful!",
        Event.fsDelete tf])
    | some e =>
      (.ok false, evs0 ++ [Event.fsWrite tf content,
        Event.exec ("kubectl apply -f " ++ tf),
        Event.fsDelete tf,
        Event.log (catchMessage e)])

/-- One step of replaying the filesystem effects of a trace. -/
def fsStep (acc : List String) (e : Event) : List String :=
  match e with
  | .fsWrite p _ => if acc.contains p then acc else acc ++ [p]
  | .fsDelete p => acc.filter (fun q => q != p)
  | _ => acc

/-- The files left on disk after a trace, starting from an empty directory. -/
def finalFiles (evs : List Event) : List String := evs.foldl fsStep []

/-- Whether an event touches the filesystem or spawns a process. -/
def Event.isEffect : Event → Bool
  | .fsWrite _ _ => true
  | .fsDelete _ => true
  | .exec _ => true
  | _ => false

/-- Whether an event is a per-resource announcement. -/
def Event.isAnnounce : Event → Bool
  | .announce _ _ => true
  | _ => false

/-- Whether an event is a file write. -/
def Event.isWrite : Event → Bool
  | .fsWrite _ _ => true
  | _ => false


theorem b64Index_b64Char (n : Nat) (h : n < 64) : b64Index (b64Char n) = some n := by
  have hfin : ∀ m : Fin 64, b64Index (b64Char m.val) = some m.val := by decide
  exact hfin ⟨n, h⟩

theorem b64Char_ne_pad (n : Nat) : b64Char n ≠ '=' := by
  by_cases h : n < 64
  · have hfin : ∀ m : Fin 64, b64Char m.val ≠ '=' := by decide
    exact hfin ⟨n, h⟩
  · have hlen : b64Alphabet.length ≤ n := by
      have : b64Alphabet.length = 64 := by decide
      omega
    unfold b64Char
    rw [List.getD_eq_getElem?_getD, List.getElem?_eq_none hlen]
    decide

theorem base64_decode_encode :
    ∀ l : List Nat, (∀ b ∈ l, b < 256) → base64Decode (base64Encode l) = some l
  | [] => fun _ => rfl
  | [a] => fun h => by
      have ha : a < 256 := h a (by simp)
      simp only [base64Encode, base64Decode]
      rw [if_pos ⟨trivial, trivial, trivial⟩,
        b64Index_b64Char _ (by omega), b64Index_b64Char _ (by omega)]
      show some [a / 4 * 4 + a % 4 * 16 / 16] = some [a]
      congr 2
      omega
  | [a, b] => fun h => by
      have ha : a < 256 := h a (by simp)
      have hb : b < 256 := h b (by simp)
      simp only [base64Encode, base64Decode]
      rw [if_neg (fun hc => b64Char_ne_pad _ hc.1), if_pos ⟨trivial, trivial⟩,
        b64Index_b64Char _ (by omega), b64Index_b64Char _ (by omega),
        b64Index_b64Char _ (by omega)]
      show some [a / 4 * 4 + (a % 4 * 16 + b / 16) / 16,
        (a % 4 * 16 + b / 16) % 16 * 16 + b % 16 * 4 / 4] = some [a, b]
      have h1 : a / 4 * 4 + (a % 4 * 16 + b / 16) / 16 = a := by omega
      have h2 : (a % 4 * 16 + b / 16) % 16 * 16 + b % 16 * 4 / 4 = b := by omega
      rw [h1, h2]
  | a :: b :: c :: rest => fun h => by
      have ha : a < 256 := h a (by simp)
      have hb : b < 256 := h b (by simp)
      have hc : c < 256 := h c (by simp)
      have ih := base64_decode_encode rest (fun x hx => h x (by simp [hx]))
      simp only [base64Encode, base64Decode]
      rw [if_neg (fun hcon => b64Char_ne_pad _ hcon.1),
        if_neg (fun hcon => b64Char_ne_pad _ hcon.1),
        b64Index_b64Char _ (by omega), b64Index_b64Char _ (by omega),
        b64Index_b64Char _ (by omega), b64Index_b64Char _ (by omega), ih]
      show some ((a / 4 * 4 + (a % 4 * 16 + b / 16) / 16) ::
        ((a % 4 * 16 + b / 16) % 16 * 16 + (b % 16 * 4 + c / 64) / 4) ::
        ((b % 16 * 4 + c / 64) % 4 * 64 + c % 64) :: rest) = some (a :: b :: c :: rest)
      have h1 : a / 4 * 4 + (a % 4 * 16 + b / 16) / 16 = a := by omega
      have h2 : (a % 4 * 16 + b / 16) % 16 * 16 + (b % 16 * 4 + c / 64) / 4 = b := by omega
      have h3 : (b % 16 * 4 + c / 64) % 4 * 64 + c % 64 = c := by omega
      rw [h1, h2, h3]
theorem utf8EncodeNat_lt (n : Nat) (hn : n < 1114112) : ∀ b ∈ utf8EncodeNat n, b < 256 := by
  intro b hb
  unfold utf8EncodeNat at hb
  split_ifs at hb with h1 h2 h3 <;>
    simp only [List.mem_cons, List.mem_singleton, List.not_mem_nil, or_false] at hb <;>
    omega

theorem utf8Bytes_lt (s : String) : ∀ b ∈ utf8Bytes s, b < 256 := by
  intro b hb
  unfold utf8Bytes at hb
  simp only [List.mem_flatMap] at hb
  obtain ⟨c, _, hbc⟩ := hb
  have hv : c.toNat < 1114112 := by
    have := c.valid
    rcases this with h | ⟨_, h⟩ <;> simp only [Char.toNat] <;> omega
  exact utf8EncodeNat_lt _ hv b hbc

/-- C2: for every secret bundle with a string-to-string data mapping, every
value in the serialized data field is the base64 encoding of the UTF-8 bytes
of the corresponding original value, and base64-decoding every output value
reproduces (the UTF-8 bytes of) the original input mapping exactly, key by
key and in order. -/
theorem secret_base64_roundtrip (name : String) (data : List (String × String))
    (options : SecretOptions) :
    ((Secret.make name data options).toYAML).data
      = data.map (fun p => (p.1, String.mk (base64Encode (utf8Bytes p.2)))) ∧
    ((Secret.make name data options).toYAML).data.map
        (fun q => (q.1, base64Decode q.2.data))
      = data.map (fun p => (p.1, some (utf8Bytes p.2))) := by
  refine ⟨rfl, ?_⟩
  show (data.map (fun p => (p.1, String.mk (base64Encode (utf8Bytes p.2))))).map
      (fun q => (q.1, base64Decode q.2.data)) = _
  rw [List.map_map]
  have hf : ((fun q : String × String => (q.1, base64Decode q.2.data)) ∘
      (fun p : String × String => (p.1, String.mk (base64Encode (utf8Bytes p.2)))))
      = fun p : String × String => (p.1, some (utf8Bytes p.2)) := by
    funext p
    simp only [Function.comp]
    exact congrArg (fun o => (p.1, o)) (base64_decode_encode _ (utf8Bytes_lt _))
  rw [hf]

/-- The serialized replica count of the first resource of a builder result,
when that first resource is a workload (deployment). -/
def headDeploymentReplicas : List KubeResource → Option Nat
  | .deployment d :: _ => some d.toYAML.spec.replicas
  | _ => none

/-- C1 counterexample: constructing a workload with the explicit replica
count 0 serializes to replica count 1, not 0, because the defaulting
`options.replicas || 1` (line 38) treats an explicit falsy 0 as absent. -/
theorem deployment_replicas_zero_counterexample :
    ((Deployment.make "web" { replicas := some 0 }).toYAML).spec.replicas = 1 ∧
    ((Deployment.make "web" { replicas := some 0 }).toYAML).spec.replicas ≠ 0 :=
  ⟨rfl, by decide⟩

/-- C1 amended: a workload built with an explicitly given nonzero replica
count r serializes to replica count r; with the count omitted (or given as
the falsy 0) it serializes to the default 1; and the first resource built by
the webApp convenience builder with no replica count given serializes to the
default 3. -/
theorem deployment_replicas_amended (name image : String) (r : Nat) (hr : r ≠ 0) :
    ((Deployment.make name { replicas := some r }).toYAML).spec.replicas = r ∧
    ((Deployment.make name {}).toYAML).spec.replicas = 1 ∧
    headDeploymentReplicas (webApp name image {}) = some 3 := by
  refine ⟨?_, rfl, rfl⟩
  show jsOrN (some r) 1 = r
  simp [jsOrN, hr]

/-- Witness for the amended C1 at the concrete replica count 3. -/
theorem deployment_replicas_amended_witness :
    (3 : Nat) ≠ 0 ∧
    (((Deployment.make "api" { replicas := some 3 }).toYAML).spec.replicas = 3 ∧
     ((Deployment.make "api" {}).toYAML).spec.replicas = 1 ∧
     headDeploymentReplicas (webApp "api" "myapi:latest" {}) = some 3) :=
  ⟨by decide, deployment_replicas_amended "api" "myapi:latest" 3 (by decide)⟩

/-- C9: for all constructor options, the serialized deployment selector is
exactly the single pair (app, name), and the pod template labels map the key
app to the name, so the selector is a subset of the template labels and the
deployment always matches its own pod template. -/
theorem deployment_selector_matches_template (name : String) (options : DeploymentOptions) :
    ((Deployment.make name options).toYAML).spec.selector.matchLabels = [("app", name)] ∧
    List.lookup "app" ((Deployment.make name options).toYAML).spec.template.metadata.labels
      = some name := by
  obtain ⟨ns, im, rep, po, en, cr, mr, cl, ml, ah⟩ := options
  rcases ah with _ | b
  · exact ⟨rfl, rfl⟩
  · cases b
    · exact ⟨rfl, rfl⟩
    · exact ⟨rfl, rfl⟩

/-- C7 counterexample: the stateful workload builder leaves the container
image (line 135) and the port with no default: with the options omitted both
fields are absent, not defaulted. -/
theorem statefulSet_image_no_default :
    (StatefulSet.make "db" {}).image = none ∧ (StatefulSet.make "db" {}).port = none :=
  ⟨rfl, rfl⟩

/-- C7 amended: for every resource builder and every valid options record,
construction is total and each constructor option falls back to its
documented default when that option is omitted, whatever the other options
are, across all six builders; the exceptions the counterexample forces are
the port of both workload builders and the image of the stateful workload
builder, which are simply absent when omitted (the plain workload builder
does default its image to nginx:latest). -/
theorem builder_defaults_amended (name target : String)
    (data : List (String × String))
    (dOpts : DeploymentOptions) (sOpts : StatefulSetOptions)
    (svOpts : ServiceOptions) (cmOpts : ConfigMapOptions)
    (secOpts : SecretOptions) (hOpts : HPAOptions) :
    (Deployment.make name { dOpts with image := none }).image = "nginx:latest" ∧
    (Deployment.make name { dOpts with replicas := none }).replicas = 1 ∧
    (Deployment.make name { dOpts with nspace := none }).base.nspace = "default" ∧
    (Deployment.make name { dOpts with env := none }).env = [] ∧
    (Deployment.make name { dOpts with cpuRequest := none }).cpuRequest = "100m" ∧
    (Deployment.make name { dOpts with memoryRequest := none }).memoryRequest = "128Mi" ∧
    (Deployment.make name { dOpts with cpuLimit := none }).cpuLimit = "500m" ∧
    (Deployment.make name { dOpts with memoryLimit := none }).memoryLimit = "512Mi" ∧
    (Deployment.make name { dOpts with port := none }).port = none ∧
    (StatefulSet.make name { sOpts with replicas := none }).replicas = 1 ∧
    (StatefulSet.make name { sOpts with nspace := none }).base.nspace = "default" ∧
    (StatefulSet.make name { sOpts with storage := none }).storage = "10Gi" ∧
    (StatefulSet.make name { sOpts with storageClass := none }).storageClass = "standard" ∧
    (StatefulSet.make name { sOpts with env := none }).env = [] ∧
    (StatefulSet.make name { sOpts with image := none }).image = none ∧
    (StatefulSet.make name { sOpts with port := none }).port = none ∧
    (Service.make name (.byName target) { svOpts with port := none }).port = 80 ∧
    (Service.make name (.byName target)
      { svOpts with port := none, targetPort := none }).targetPort = 80 ∧
    (Service.make name (.byName target) { svOpts with type := none }).type = "ClusterIP" ∧
    (Service.make name (.byName target) { svOpts with nspace := none }).base.nspace
      = "default" ∧
    (ConfigMap.make name data { cmOpts with nspace := none }).base.nspace = "default" ∧
    (ConfigMap.make name data cmOpts).data = data ∧
    (Secret.make name data { secOpts with nspace := none }).base.nspace = "default" ∧
    (Secret.make name data { secOpts with type := none }).type = "Opaque" ∧
    (Secret.make name data secOpts).data = data ∧
    (HorizontalPodAutoscaler.make name (.byName target)
      { hOpts with minReplicas := none }).minReplicas = 1 ∧
    (HorizontalPodAutoscaler.make name (.byName target)
      { hOpts with maxReplicas := none }).maxReplicas = 10 ∧
    (HorizontalPodAutoscaler.make name (.byName target)
      { hOpts with cpuPercent := none }).cpuPercent = 80 ∧
    (HorizontalPodAutoscaler.make name (.byName target)
      { hOpts with nspace := none }).base.nspace = "default" := by
  obtain ⟨dns, dim, drep, dpo, den, dcr, dmr, dcl, dml, dah⟩ := dOpts
  rcases dah with _ | (_ | _) <;>
    exact ⟨rfl, rfl, rfl, rfl, rfl, rfl, rfl, rfl, rfl, rfl, rfl, rfl, rfl, rfl, rfl,
      rfl, rfl, rfl, rfl, rfl, rfl, rfl, rfl, rfl, rfl, rfl, rfl, rfl, rfl⟩

/-- C3: deriving a network exposure from a workload that specifies a (truthy)
port, with default options, yields a service named name-service targeting
the workload by name, of type ClusterIP, whose port and target port both
equal the workload port rather than the service default 80. -/
theorem serviceFor_default_options_spec (w : WorkloadRef) (p : Nat)
    (hp : w.port = some p) (hpz : p ≠ 0) :
    (serviceFor w {}).base.name = w.name ++ "-service" ∧
    (serviceFor w {}).target = w.name ∧
    (serviceFor w {}).type = "ClusterIP" ∧
    (serviceFor w {}).port = p ∧
    (serviceFor w {}).targetPort = p := by
  refine ⟨rfl, rfl, rfl, ?_, ?_⟩
  · show jsOrN (some (jsOrN w.port 80)) 80 = p
    simp [jsOrN, hp, hpz]
  · show jsOrN none (jsOrN (ServiceTarget.tport (.byRef w)) (jsOrN (some (jsOrN w.port 80)) 80)) = p
    simp [jsOrN, ServiceTarget.tport, hp, hpz]

/-- The concrete workload of the C3 scenario. -/
def apiWorkload : Deployment :=
  Deployment.make "api" { image := some "myapi:latest", replicas := some 3, port := some 8080 }

/-- Witness for C3 at the spec scenario: the workload named api with image
myapi:latest, replicas 3 and port 8080. -/
theorem serviceFor_default_options_spec_witness :
    apiWorkload.ref.port = some 8080 ∧ (8080 : Nat) ≠ 0 ∧
    ((serviceFor apiWorkload.ref {}).base.name = apiWorkload.ref.name ++ "-service" ∧
     (serviceFor apiWorkload.ref {}).target = apiWorkload.ref.name ∧
     (serviceFor apiWorkload.ref {}).type = "ClusterIP" ∧
     (serviceFor apiWorkload.ref {}).port = 8080 ∧
     (serviceFor apiWorkload.ref {}).targetPort = 8080) :=
  ⟨rfl, by decide, serviceFor_default_options_spec apiWorkload.ref 8080 rfl (by decide)⟩

/-- C10: a service built with a plain string as the target and no explicit
target port gets its own port as target port (80 when the port option is
also omitted): port inference from the referenced workload never happens
through a name reference. -/
theorem service_string_target_port (name s : String) (options : ServiceOptions)
    (h : options.targetPort = none) :
    (Service.make name (.byName s) options).targetPort
      = (Service.make name (.byName s) options).port ∧
    (options.port = none → (Service.make name (.byName s) options).port = 80) := by
  constructor
  · show jsOrN options.targetPort
        (jsOrN (ServiceTarget.tport (.byName s)) (jsOrN options.port 80))
      = jsOrN options.port 80
    rw [h]
    rfl
  · intro hp
    show jsOrN options.port 80 = 80
    rw [hp]
    rfl

/-- Witness for C10 with every option omitted. -/
theorem service_string_target_port_witness :
    ({} : ServiceOptions).targetPort = none ∧
    ((Service.make "svc" (.byName "api") {}).targetPort
       = (Service.make "svc" (.byName "api") {}).port ∧
     (({} : ServiceOptions).port = none → (Service.make "svc" (.byName "api") {}).port = 80)) :=
  ⟨rfl, service_string_target_port "svc" "api" {} rfl⟩

theorem filter_effect_announces (rs : List KubeResource) :
    (rs.map (fun r => Event.announce r.kind r.name)).filter Event.isEffect = [] := by
  induction rs with
  | nil => rfl
  | cons r t ih => simp [List.filter_cons, Event.isEffect, ih]

theorem filter_announce_announces (rs : List KubeResource) :
    (rs.map (fun r => Event.announce r.kind r.name)).filter Event.isAnnounce
      = rs.map (fun r => Event.announce r.kind r.name) := by
  induction rs with
  | nil => rfl
  | cons r t ih => simp [List.filter_cons, Event.isAnnounce, ih]

theorem filter_write_announces (rs : List KubeResource) :
    (rs.map (fun r => Event.announce r.kind r.name)).filter Event.isWrite = [] := by
  induction rs with
  | nil => rfl
  | cons r t ih => simp [List.filter_cons, Event.isWrite, ih]

theorem filter_effect_yaml_logs (dump : Doc → String) (docs : List Doc) :
    (docs.flatMap (fun d => [Event.log "---", Event.log (dump d)])).filter Event.isEffect
      = [] := by
  induction docs with
  | nil => rfl
  | cons d t ih => simp [List.flatMap_cons, List.filter_append, List.filter_cons,
      Event.isEffect, ih]

theorem filter_announce_yaml_logs (dump : Doc → String) (docs : List Doc) :
    (docs.flatMap (fun d => [Event.log "---", Event.log (dump d)])).filter Event.isAnnounce
      = [] := by
  induction docs with
  | nil => rfl
  | cons d t ih => simp [List.flatMap_cons, List.filter_append, List.filter_cons,
      Event.isAnnounce, ih]

theorem foldl_fsStep_announces (rs : List KubeResource) (acc : List String) :
    List.foldl fsStep acc (rs.map (fun r => Event.announce r.kind r.name)) = acc := by
  induction rs generalizing acc with
  | nil => rfl
  | cons r t ih => simp [List.foldl_cons, fsStep, ih]

/-- C4: in dry-run mode, deploy performs no filesystem or process effect at
all, while its trace still announces every resource passed to it, in order. -/
theorem deploy_dryRun_frame (dump : Doc → String) (env : DeployEnv)
    (resources : List KubeResource) (o : DeployOpts) (h : o.dryRun = true) :
    (deployRun dump env resources (some o)).2.filter Event.isEffect = [] ∧
    (deployRun dump env resources (some o)).2.filter Event.isAnnounce
      = resources.map (fun r => Event.announce r.kind r.name) := by
  by_cases hy : env.jsYamlOk = true <;>
    simp [deployRun, h, hy, List.filter_append, List.filter_cons, Event.isEffect,
      Event.isAnnounce, filter_effect_announces, filter_announce_announces,
      filter_effect_yaml_logs, filter_announce_yaml_logs]

/-- Witness for C4 with one concrete resource. -/
theorem deploy_dryRun_frame_witness :
    ({ dryRun := true } : DeployOpts).dryRun = true ∧
    ((deployRun (fun _ => "doc") { jsYamlOk := true, kubectlErr := none, now := 0 }
        [KubeResource.configMap (ConfigMap.make "app-config" [("k", "v")] {})]
        (some { dryRun := true })).2.filter Event.isEffect = [] ∧
     (deployRun (fun _ => "doc") { jsYamlOk := true, kubectlErr := none, now := 0 }
        [KubeResource.configMap (ConfigMap.make "app-config" [("k", "v")] {})]
        (some { dryRun := true })).2.filter Event.isAnnounce
       = [KubeResource.configMap (ConfigMap.make "app-config" [("k", "v")] {})].map
           (fun r => Event.announce r.kind r.name)) :=
  ⟨rfl, deploy_dryRun_frame (fun _ => "doc") _ _ _ rfl⟩

/-- C5: in apply mode with the serializer available, the transient manifest
file is removed whatever the external process does (no file is left behind
on the failure environment, nor on the same environment with the process
succeeding), and a failing external process makes deploy report false. -/
theorem deploy_apply_failure_cleanup (dump : Doc → String) (env : DeployEnv)
    (resources : List KubeResource) (o : DeployOpts) (e : String)
    (h1 : o.dryRun = false) (h2 : o.apply = true) (h3 : env.jsYamlOk = true)
    (h4 : env.kubectlErr = some e) :
    finalFiles ((deployRun dump env resources (some o)).2) = [] ∧
    (deployRun dump env resources (some o)).1 = .ok false ∧
    finalFiles ((deployRun dump { env with kubectlErr := none } resources (some o)).2)
      = [] := by
  refine ⟨?_, ?_, ?_⟩
  · simp [deployRun, h1, h2, h3, h4, finalFiles, List.foldl_cons, List.foldl_append,
      foldl_fsStep_announces, fsStep]
  · simp [deployRun, h1, h2, h3, h4]
  · simp [deployRun, h1, h2, h3, finalFiles, List.foldl_cons, List.foldl_append,
      foldl_fsStep_announces, fsStep]

/-- Witness for C5 on a concrete failing environment. -/
theorem deploy_apply_failure_cleanup_witness :
    ({} : DeployOpts).dryRun = false ∧ ({} : DeployOpts).apply = true ∧
    ({ jsYamlOk := true, kubectlErr := some "exit 1", now := 42 } : DeployEnv).jsYamlOk
      = true ∧
    ({ jsYamlOk := true, kubectlErr := some "exit 1", now := 42 } : DeployEnv).kubectlErr
      = some "exit 1" ∧
    (finalFiles ((deployRun (fun _ => "doc")
        { jsYamlOk := true, kubectlErr := some "exit 1", now := 42 }
        [KubeResource.configMap (ConfigMap.make "app-config" [("k", "v")] {})]
        (some {})).2) = [] ∧
     (deployRun (fun _ => "doc") { jsYamlOk := true, kubectlErr := some "exit 1", now := 42 }
        [KubeResource.configMap (ConfigMap.make "app-config" [("k", "v")] {})]
        (some {})).1 = .ok false ∧
     finalFiles ((deployRun (fun _ => "doc")
        { jsYamlOk := true, kubectlErr := none, now := 42 }
        [KubeResource.configMap (ConfigMap.make "app-config" [("k", "v")] {})]
        (some {})).2) = []) :=
  ⟨rfl, rfl, rfl, rfl,
   deploy_apply_failure_cleanup (fun _ => "doc") _ _ {} "exit 1" rfl rfl rfl rfl⟩

/-- C8: in apply mode the single manifest written for the external tool is
exactly the serialized documents of the resources in the order they were
passed, joined by the standard multi-document separator, with nothing
reordered, inserted or dropped. -/
theorem deploy_apply_output_order (dump : Doc → String) (env : DeployEnv)
    (resources : List KubeResource) (o : DeployOpts)
    (h1 : o.dryRun = false) (h2 : o.apply = true) (h3 : env.jsYamlOk = true) :
    (deployRun dump env resources (some o)).2.filter Event.isWrite
      = [Event.fsWrite (tempFileName env.now)
          (String.intercalate "---\n" ((resources.map KubeResource.toDoc).map dump))] := by
  cases h4 : env.kubectlErr <;>
    simp [deployRun, h1, h2, h3, h4, List.filter_append, List.filter_cons,
      Event.isWrite, filter_write_announces]

/-- Witness for C8 with two concrete resources. -/
theorem deploy_apply_output_order_witness :
    ({} : DeployOpts).dryRun = false ∧ ({} : DeployOpts).apply = true ∧
    ({ jsYamlOk := true, kubectlErr := none, now := 7 } : DeployEnv).jsYamlOk = true ∧
    (deployRun (fun _ => "doc") { jsYamlOk := true, kubectlErr := none, now := 7 }
        [KubeResource.configMap (ConfigMap.make "app-config" [("k", "v")] {}),
         KubeResource.secret (Secret.make "app-secrets" [("pw", "s3cret")] {})]
        (some {})).2.filter Event.isWrite
      = [Event.fsWrite (tempFileName 7)
          (String.intercalate "---\n"
            (([KubeResource.configMap (ConfigMap.make "app-config" [("k", "v")] {}),
               KubeResource.secret (Secret.make "app-secrets" [("pw", "s3cret")] {})].map
                KubeResource.toDoc).map (fun _ => "doc"))) ] :=
  ⟨rfl, rfl, rfl,
   deploy_apply_output_order (fun _ => "doc") _ _ {} rfl rfl rfl⟩

/-- The console line the catch block of deploy (lines 355-363) prints for a
given failing environment: the js-yaml hint when the module is missing,
otherwise the routing of the external-process error message. -/
def expectedErrorLog (env : DeployEnv) : String :=
  if env.jsYamlOk then catchMessage (env.kubectlErr.getD "")
  else catchMessage missingYamlMsg

/-- C6 counterexample: in dry-run mode a missing js-yaml module is NOT caught
and NOT reported as false: the require of line 323 sits before the try block
of line 335, so the failure escapes deploy as an uncaught exception. -/
theorem deploy_dryRun_missing_yaml_uncaught :
    (deployRun (fun _ => "doc") { jsYamlOk := false, kubectlErr := none, now := 0 }
      [KubeResource.configMap (ConfigMap.make "app-config" [("k", "v")] {})]
      (some { dryRun := true })).1 = .error missingYamlMsg ∧
    (deployRun (fun _ => "doc") { jsYamlOk := false, kubectlErr := none, now := 0 }
      [KubeResource.configMap (ConfigMap.make "app-config" [("k", "v")] {})]
      (some { dryRun := true })).1 ≠ .ok false := by
  refine ⟨rfl, ?_⟩
  intro hcon
  rw [show (deployRun (fun _ => "doc") { jsYamlOk := false, kubectlErr := none, now := 0 }
      [KubeResource.configMap (ConfigMap.make "app-config" [("k", "v")] {})]
      (some { dryRun := true })).1 = Except.error missingYamlMsg from rfl] at hcon
  exact Except.noConfusion hcon

/-- C6 amended: in apply mode every failing environment (missing js-yaml
module, or any external-process failure) is caught, logged as a
human-readable message, and reported as the boolean false; the dry-run mode
guarantee does not hold for a missing serialization dependency. -/
theorem deploy_apply_errors_caught (dump : Doc → String) (env : DeployEnv)
    (resources : List KubeResource) (o : DeployOpts)
    (h1 : o.dryRun = false) (h2 : o.apply = true)
    (h3 : env.jsYamlOk = false ∨ env.kubectlErr.isSome = true) :
    (deployRun dump env resources (some o)).1 = .ok false ∧
    Event.log (expectedErrorLog env) ∈ (deployRun dump env resources (some o)).2 := by
  by_cases hy : env.jsYamlOk = true
  · have h4 : env.kubectlErr.isSome = true := by
      rcases h3 with h3 | h3
      · rw [hy] at h3
        cases h3
      · exact h3
    obtain ⟨e, he⟩ := Option.isSome_iff_exists.mp h4
    simp [deployRun, expectedErrorLog, h1, h2, hy, he]
  · have hy' : env.jsYamlOk = false := by
      cases hxx : env.jsYamlOk
      · rfl
      · exact absurd hxx hy
    simp [deployRun, expectedErrorLog, h1, h2, hy', List.mem_append]

/-- Witness for the amended C6 on a concrete environment missing js-yaml. -/
theorem deploy_apply_errors_caught_witness :
    ({} : DeployOpts).dryRun = false ∧ ({} : DeployOpts).apply = true ∧
    (({ jsYamlOk := false, kubectlErr := none, now := 0 } : DeployEnv).jsYamlOk = false ∨
     ({ jsYamlOk := false, kubectlErr := none, now := 0 } : DeployEnv).kubectlErr.isSome
       = true) ∧
    ((deployRun (fun _ => "doc") { jsYamlOk := false, kubectlErr := none, now := 0 }
        [KubeResource.configMap (ConfigMap.make "app-config" [("k", "v")] {})]
        (some {})).1 = .ok false ∧
     Event.log (expectedErrorLog { jsYamlOk := false, kubectlErr := none, now := 0 })
       ∈ (deployRun (fun _ => "doc") { jsYamlOk := false, kubectlErr := none, now := 0 }
          [KubeResource.configMap (ConfigMap.make "app-config" [("k", "v")] {})]
          (some {})).2) :=
  ⟨rfl, rfl, Or.inl rfl,
   deploy_apply_errors_caught (fun _ => "doc") _ _ {} rfl rfl (Or.inl rfl)⟩
